import Mathlib

/-!
Verification of the `filament::viewer::AutomationEngine` state machine
(src/libs/viewer/include/viewer/AutomationEngine.h).

The engine walks an ordered list of test cases (settings snapshots),
applying each one to a view and advancing on a time/frame cadence.  The
header declares the data (Options, the private fields and their default
initializers) and defines the trivial member functions inline
(`allowBatchMode`, `stopRunning`, `requestClose`, the getters, the
constructor).  The bodies of `startRunning`, `requestBatchMode` and
`tick` live in a translation unit that is not part of the sources here;
those three operations are modelled from the specification (section 4.1
of the design document), and each such definition says so in its doc
comment.

Settings snapshots are opaque to the engine, so the model is polymorphic
in a type `S` of snapshots; the test-case source is a `List S`.  C++
`float` time values are modelled as exact rationals (`Rat`): every claim
under study concerns only accumulation and order comparison of times,
which the rationals share with the floats.  Side effects on borrowed
collaborators (applying a snapshot to the view, mirroring it into a
caller-supplied settings object, requesting a screenshot, serializing a
settings file) are returned as an explicit list of `Effect` events.
-/

/-- `AutomationEngine::Options` from the header: sleep duration in
seconds, the two export switches, and the minimum frame count.  Defaults
as in the header (`0.2`, `false`, `false`, `2`). -/
structure Options where
  sleepDuration : Rat := (0.2 : Rat)
  exportScreenshots : Bool := false
  exportSettings : Bool := false
  minFrameCount : Int := 2
deriving DecidableEq, Repr

/-- Observable side effects of one engine operation on the borrowed
view / renderer / caller-settings collaborators:
applying a snapshot to the view, mirroring it into the caller-provided
settings object, requesting an asynchronous screenshot for a test index,
and synchronously serializing the settings file for a test index. -/
inductive Effect (S : Type) where
  | applyToView : S → Effect S
  | writeToCallerSettings : S → Effect S
  | screenshotRequested : Nat → Effect S
  | settingsFileWritten : Nat → Effect S
deriving DecidableEq, Repr

/-- The engine state: one field per data member of `AutomationEngine`.
`mSettings` is `none` while still holding its default-constructed value,
`some s` once the snapshot `s` has been copied into it. -/
structure Engine (S : Type) where
  mOptions : Options
  mCurrentTest : Nat
  mElapsedTime : Rat
  mElapsedFrames : Int
  mIsRunning : Bool
  mBatchModeEnabled : Bool
  mBatchModePending : Bool
  mShouldClose : Bool
  mBatchModeAllowed : Bool
  mSettings : Option S
  mSpec : List S
deriving DecidableEq, Repr

/-- The constructor `AutomationEngine(const AutomationSpec* spec) :
mSpec(spec) {}`.  The members `mCurrentTest`, `mElapsedTime` and
`mElapsedFrames` have no default member initializer and the constructor
does not set them, so after construction they hold indeterminate values;
the model makes the indeterminacy explicit by taking those three values
as parameters.  The five `bool` members have `= false` initializers,
`mOptions` is default-constructed, and `mSettings` is
default-constructed (modelled as `none`). -/
def construct {S : Type} (spec : List S) (junkCurrentTest : Nat)
    (junkElapsedTime : Rat) (junkElapsedFrames : Int) : Engine S :=
  { mOptions := {}
    mCurrentTest := junkCurrentTest
    mElapsedTime := junkElapsedTime
    mElapsedFrames := junkElapsedFrames
    mIsRunning := false
    mBatchModeEnabled := false
    mBatchModePending := false
    mShouldClose := false
    mBatchModeAllowed := false
    mSettings := none
    mSpec := spec }

/-- Getter `isRunning()` (header, inline). -/
def isRunning {S : Type} (e : Engine S) : Bool := e.mIsRunning

/-- Getter `currentTest()` (header, inline). -/
def currentTest {S : Type} (e : Engine S) : Nat := e.mCurrentTest

/-- Getter `testCount()` (header, inline): `mSpec->size()`. -/
def testCount {S : Type} (e : Engine S) : Nat := e.mSpec.length

/-- Getter `shouldClose()` (header, inline). -/
def shouldClose {S : Type} (e : Engine S) : Bool := e.mShouldClose

/-- Getter `isBatchModeEnabled()` (header, inline). -/
def isBatchModeEnabled {S : Type} (e : Engine S) : Bool := e.mBatchModeEnabled

/-- `allowBatchMode()` (header, inline): `mBatchModeAllowed = true`. -/
def allowBatchMode {S : Type} (e : Engine S) : Engine S :=
  { e with mBatchModeAllowed := true }

/-- `stopRunning()` (header, inline): `mIsRunning = false`. -/
def stopRunning {S : Type} (e : Engine S) : Engine S :=
  { e with mIsRunning := false }

/-- `requestClose()` (header, inline): `mShouldClose = true`.  Invoked
by the asynchronous screenshot-completion callback. -/
def requestClose {S : Type} (e : Engine S) : Engine S :=
  { e with mShouldClose := true }

/-- Modelled from the spec: the effects of applying test case `i` to the
borrowed view and, when the caller passed a settings object
(`hasSettings`), mirroring the snapshot into it.  Out-of-range indices
produce no effect (the spec assumes they never occur in valid use). -/
def applyTestEffects {S : Type} (spec : List S) (i : Nat) (hasSettings : Bool) :
    List (Effect S) :=
  match spec[i]? with
  | some s => Effect.applyToView s ::
      (if hasSettings then [Effect.writeToCallerSettings s] else [])
  | none => []

/-- Modelled from the spec: the state part of activating test case `i`
(section 4.1): set `currentTest := i`, reset the elapsed-time and
elapsed-frame accumulators, and copy the snapshot into the tracked
session settings. -/
def activateTest {S : Type} (e : Engine S) (i : Nat) : Engine S :=
  { e with
    mCurrentTest := i
    mElapsedTime := 0
    mElapsedFrames := 0
    mSettings := match e.mSpec[i]? with
      | some s => some s
      | none => e.mSettings }

/-- Modelled from the spec: `startRunning(view, settings?)`, whose body
(AutomationEngine.cpp) is not among the sources.  Per transition 1 of
section 4.1: any state → Active; reset `currentTest = 0`, clear the
timers, set `batchModeEnabled = false` (hence also clear
`batchModePending`, since Active has it false), set `isRunning`, and
apply test case 0 immediately to the view (and to the caller's settings
object if provided, copying it into the tracked session settings). -/
def startRunning {S : Type} (e : Engine S) (hasSettings : Bool) :
    Engine S × List (Effect S) :=
  ({ activateTest e 0 with
      mIsRunning := true
      mBatchModeEnabled := false
      mBatchModePending := false },
   applyTestEffects e.mSpec 0 hasSettings)

/-- Modelled from the spec: `requestBatchMode()`, whose body is not
among the sources.  Per transition 2 of section 4.1: sets
`isRunning = true`, `batchModeEnabled = true`, `batchModePending = true`;
applies no test case and leaves `batchModeAllowed` untouched. -/
def requestBatchMode {S : Type} (e : Engine S) : Engine S :=
  { e with
    mIsRunning := true
    mBatchModeEnabled := true
    mBatchModePending := true }

/-- Modelled from the spec: `tick(view, renderer, deltaTime, settings?)`,
whose body is not among the sources.  Per transition 4 of section 4.1:
no-op unless running; in Pending, wait for `batchModeAllowed` and then
activate test case 0; in Active, accumulate time and frames, and when
both thresholds are met perform the advance sequence (optional
screenshot request and settings export tagged with the outgoing test
index, then increment; on exhaustion return to idle, with
`shouldClose = true` when in batch mode with screenshots disabled, per
step 4d and scenario 3 of section 8; otherwise activate the next test
case). -/
def tick {S : Type} (e : Engine S) (deltaTime : Rat) (hasSettings : Bool) :
    Engine S × List (Effect S) :=
  if e.mIsRunning = false then (e, [])
  else if e.mBatchModePending then
    if e.mBatchModeAllowed = false then (e, [])
    else ({ activateTest e 0 with mBatchModePending := false },
          applyTestEffects e.mSpec 0 hasSettings)
  else
    let et := e.mElapsedTime + deltaTime
    let ef := e.mElapsedFrames + 1
    if et < e.mOptions.sleepDuration ∨ ef < e.mOptions.minFrameCount then
      ({ e with mElapsedTime := et, mElapsedFrames := ef }, [])
    else
      let scr : List (Effect S) :=
        if e.mOptions.exportScreenshots then
          [Effect.screenshotRequested e.mCurrentTest] else []
      let sf : List (Effect S) :=
        if e.mOptions.exportSettings then
          [Effect.settingsFileWritten e.mCurrentTest] else []
      let next := e.mCurrentTest + 1
      if next = e.mSpec.length then
        if e.mBatchModeEnabled ∧ e.mOptions.exportScreenshots = false then
          ({ e with mCurrentTest := next, mElapsedTime := et,
                    mElapsedFrames := ef, mIsRunning := false,
                    mShouldClose := true }, scr ++ sf)
        else
          ({ e with mCurrentTest := next, mElapsedTime := et,
                    mElapsedFrames := ef, mIsRunning := false }, scr ++ sf)
      else
        (activateTest e next, scr ++ sf ++ applyTestEffects e.mSpec next hasSettings)

/-- One public operation of the engine, for statements quantifying over
arbitrary call sequences.  `startRunning` and `tick` carry whether the
caller passed a settings object; `tick` carries its delta time. -/
inductive Op where
  | startRunning : Bool → Op
  | requestBatchMode : Op
  | allowBatchMode : Op
  | stopRunning : Op
  | requestClose : Op
  | tick : Rat → Bool → Op
deriving DecidableEq, Repr

/-- Dispatch one operation, pairing the new state with its effects
(operations other than `startRunning` and `tick` have none). -/
def step {S : Type} (e : Engine S) : Op → Engine S × List (Effect S)
  | Op.startRunning hs => startRunning e hs
  | Op.requestBatchMode => (requestBatchMode e, [])
  | Op.allowBatchMode => (allowBatchMode e, [])
  | Op.stopRunning => (stopRunning e, [])
  | Op.requestClose => (requestClose e, [])
  | Op.tick dt hs => tick e dt hs

/-- A finite sequence of ticks, one `(deltaTime, hasSettings)` pair per
frame, accumulating the effects of every frame. -/
def ticks {S : Type} (e : Engine S) : List (Rat × Bool) → Engine S × List (Effect S)
  | [] => (e, [])
  | frame :: rest =>
    let r := tick e frame.1 frame.2
    let r2 := ticks r.1 rest
    (r2.1, r.2 ++ r2.2)

/-- The session invariant established by `startRunning` or by the firing
of a pending batch activation: a nonempty test list, `currentTest` never
beyond `testCount`, and strictly below it while a test case is actually
being dwelt on (running and not pending). -/
def SessionInv {S : Type} (e : Engine S) : Prop :=
  0 < e.mSpec.length ∧
  e.mCurrentTest ≤ e.mSpec.length ∧
  (e.mIsRunning = true → e.mBatchModePending = false →
    e.mCurrentTest < e.mSpec.length)

/-- A sample three-test active non-batch session used by witnesses:
`sleepDuration = 1`, `minFrameCount = 2`, exports off, test case 0 just
applied. -/
def activeEngine : Engine Nat :=
  { mOptions := { sleepDuration := 1, exportScreenshots := false,
                  exportSettings := false, minFrameCount := 2 }
    mCurrentTest := 0
    mElapsedTime := 0
    mElapsedFrames := 0
    mIsRunning := true
    mBatchModeEnabled := false
    mBatchModePending := false
    mShouldClose := false
    mBatchModeAllowed := false
    mSettings := some 10
    mSpec := [10, 20, 30] }

/-- A sample batch session in the Pending state (requested, not yet
allowed), zero sleep and single-frame cadence, screenshots off. -/
def pendingEngine : Engine Nat :=
  { mOptions := { sleepDuration := 0, exportScreenshots := false,
                  exportSettings := false, minFrameCount := 1 }
    mCurrentTest := 0
    mElapsedTime := 0
    mElapsedFrames := 0
    mIsRunning := true
    mBatchModeEnabled := true
    mBatchModePending := true
    mShouldClose := false
    mBatchModeAllowed := false
    mSettings := none
    mSpec := [10, 20, 30] }

/-- A sample batch-mode active session on its last test case
(`currentTest = 2` of 3), screenshots off, about to exhaust. -/
def lastTestBatchEngine : Engine Nat :=
  { mOptions := { sleepDuration := 0, exportScreenshots := false,
                  exportSettings := false, minFrameCount := 1 }
    mCurrentTest := 2
    mElapsedTime := 0
    mElapsedFrames := 0
    mIsRunning := true
    mBatchModeEnabled := true
    mBatchModePending := false
    mShouldClose := false
    mBatchModeAllowed := true
    mSettings := some 30
    mSpec := [10, 20, 30] }

/-- A sample non-batch active session on its last test case. -/
def lastTestEngine : Engine Nat :=
  { lastTestBatchEngine with mBatchModeEnabled := false, mBatchModeAllowed := false }

/-- Helper: a tick in the Pending state with `batchModeAllowed` still
false changes nothing and produces no effect. -/
theorem tick_pending_blocked {S : Type} (e : Engine S) (dt : Rat) (hs : Bool)
    (hrun : e.mIsRunning = true) (hpend : e.mBatchModePending = true)
    (hallow : e.mBatchModeAllowed = false) :
    tick e dt hs = (e, []) := by
  simp [tick, hrun, hpend, hallow]

/-- Claim C1: in a running Active session, a tick advances to the next
test case (and exports) only when both thresholds are met since the last
applied test case: if the accumulated time is still below
`sleepDuration` or the accumulated frame count is still below
`minFrameCount`, the tick leaves `currentTest` unchanged and performs no
export or application (no effect at all). -/
theorem tick_requires_both_thresholds {S : Type} (e : Engine S) (dt : Rat)
    (hs : Bool) (hrun : e.mIsRunning = true)
    (hpend : e.mBatchModePending = false)
    (hmiss : e.mElapsedTime + dt < e.mOptions.sleepDuration ∨
             e.mElapsedFrames + 1 < e.mOptions.minFrameCount) :
    (tick e dt hs).1.mCurrentTest = e.mCurrentTest ∧ (tick e dt hs).2 = [] := by
  simp [tick, hrun, hpend, hmiss]

/-- Witness for C1: the sample active engine one tick after activation,
with only one frame elapsed and half the sleep duration, does not
advance. -/
theorem tick_requires_both_thresholds_witness :
    (tick activeEngine (1/2) true).1.mCurrentTest = activeEngine.mCurrentTest ∧
    (tick activeEngine (1/2) true).2 = [] :=
  tick_requires_both_thresholds activeEngine (1/2) true (by decide) (by decide)
    (by with_unfolding_all decide)

/-- Claim C5: whenever `isRunning()` is false, `tick` is a no-op in
every respect: the state is returned unchanged (no field mutated) and no
effect is produced (no application, no screenshot, no settings export),
for every delta time and whether or not a settings object is passed. -/
theorem tick_noop_when_idle {S : Type} (e : Engine S) (dt : Rat) (hs : Bool)
    (h : e.mIsRunning = false) : tick e dt hs = (e, []) := by
  simp [tick, h]

/-- Witness for C5: ticking the sample engine after `stopRunning`
changes nothing. -/
theorem tick_noop_when_idle_witness :
    tick (stopRunning activeEngine) 1 true = (stopRunning activeEngine, []) :=
  tick_noop_when_idle (stopRunning activeEngine) 1 true (by decide)

/-- Claim C6: in the Pending state, while `batchModeAllowed` is still
false every sequence of ticks leaves the engine unchanged and produces
no effect; once `batchModeAllowed` is true, the next tick activates test
case 0 (its effects are exactly the application of test case 0), clears
`batchModePending`, and resets both timers. -/
theorem pending_waits_for_allow {S : Type} (e : Engine S)
    (hrun : e.mIsRunning = true) (hpend : e.mBatchModePending = true) :
    (e.mBatchModeAllowed = false →
       ∀ frames : List (Rat × Bool), ticks e frames = (e, [])) ∧
    (e.mBatchModeAllowed = true → ∀ (dt : Rat) (hs : Bool),
       (tick e dt hs).1.mCurrentTest = 0 ∧
       (tick e dt hs).1.mBatchModePending = false ∧
       (tick e dt hs).1.mElapsedTime = 0 ∧
       (tick e dt hs).1.mElapsedFrames = 0 ∧
       (tick e dt hs).2 = applyTestEffects e.mSpec 0 hs) := by
  constructor
  · intro hallow frames
    induction frames with
    | nil => rfl
    | cons f rest ih =>
      simp [ticks, tick_pending_blocked e f.1 f.2 hrun hpend hallow, ih]
  · intro hallow dt hs
    simp [tick, hrun, hpend, hallow, activateTest]

/-- Witness for C6: two ticks of the sample pending engine are inert;
after `allowBatchMode`, one tick activates test case 0. -/
theorem pending_waits_for_allow_witness :
    ticks pendingEngine [(1, true), (1, false)] = (pendingEngine, []) ∧
    (tick (allowBatchMode pendingEngine) 1 true).1.mCurrentTest = 0 ∧
    (tick (allowBatchMode pendingEngine) 1 true).1.mBatchModePending = false :=
  ⟨(pending_waits_for_allow pendingEngine (by decide) (by decide)).1
      (by decide) [(1, true), (1, false)],
   ((pending_waits_for_allow (allowBatchMode pendingEngine) (by decide)
      (by decide)).2 (by decide) 1 true).1,
   (((pending_waits_for_allow (allowBatchMode pendingEngine) (by decide)
      (by decide)).2 (by decide) 1 true).2).1⟩

/-- Claim C7: from every prior state and every prior `currentTest`,
`startRunning` resets `currentTest` to 0, resets both elapsed counters,
sets `batchModeEnabled` to false, sets `isRunning` to true, copies test
case 0 into the tracked session settings, and its effects are exactly
the immediate application of test case 0 to the view (mirrored into the
caller's settings object when one is provided); it never resumes
mid-sequence. -/
theorem startRunning_always_resets {S : Type} (e : Engine S) (hs : Bool)
    (s0 : S) (h0 : e.mSpec[0]? = some s0) :
    (startRunning e hs).1.mCurrentTest = 0 ∧
    (startRunning e hs).1.mElapsedTime = 0 ∧
    (startRunning e hs).1.mElapsedFrames = 0 ∧
    (startRunning e hs).1.mBatchModeEnabled = false ∧
    (startRunning e hs).1.mIsRunning = true ∧
    (startRunning e hs).1.mSettings = some s0 ∧
    (startRunning e hs).2 = Effect.applyToView s0 ::
      (if hs then [Effect.writeToCallerSettings s0] else []) := by
  simp [startRunning, activateTest, applyTestEffects, h0]

/-- Witness for C7: `startRunning` on the sample batch engine sitting at
its last test case restarts from test case 0. -/
theorem startRunning_always_resets_witness :
    (startRunning lastTestBatchEngine true).1.mCurrentTest = 0 ∧
    (startRunning lastTestBatchEngine true).1.mElapsedTime = 0 ∧
    (startRunning lastTestBatchEngine true).1.mElapsedFrames = 0 ∧
    (startRunning lastTestBatchEngine true).1.mBatchModeEnabled = false ∧
    (startRunning lastTestBatchEngine true).1.mIsRunning = true ∧
    (startRunning lastTestBatchEngine true).1.mSettings = some 10 ∧
    (startRunning lastTestBatchEngine true).2 =
      [Effect.applyToView 10, Effect.writeToCallerSettings 10] := by
  exact startRunning_always_resets lastTestBatchEngine true 10 (by decide)

/-- Claim C8: from every prior state, `stopRunning()` makes
`isRunning()` false immediately, never sets `shouldClose()`, leaves
`currentTest` at its last value, produces no export or other effect, and
changes no field other than `mIsRunning`. -/
theorem stopRunning_cancels_without_close {S : Type} (e : Engine S) :
    (step e Op.stopRunning).1.mIsRunning = false ∧
    (step e Op.stopRunning).1.mShouldClose = e.mShouldClose ∧
    (step e Op.stopRunning).1.mCurrentTest = e.mCurrentTest ∧
    (step e Op.stopRunning).2 = [] ∧
    (step e Op.stopRunning).1 = { e with mIsRunning := false } := by
  simp [step, stopRunning]

/-- Claim C9: for every engine state, idle ones included, `requestClose()`
sets `shouldClose` to true, modifies no other state field, and has no
effect on any collaborator; a stale completion callback arriving after
`stopRunning` is therefore tolerated. -/
theorem requestClose_only_sets_shouldClose {S : Type} (e : Engine S) :
    (step e Op.requestClose).1 = { e with mShouldClose := true } ∧
    (step e Op.requestClose).2 = [] ∧
    (step e Op.requestClose).1.mShouldClose = true ∧
    (step e Op.requestClose).1.mIsRunning = e.mIsRunning ∧
    (step e Op.requestClose).1.mCurrentTest = e.mCurrentTest := by
  simp [step, requestClose]

/-- Claim C10: on a freshly constructed engine the three
counter members hold whatever indeterminate values were in their storage
(the model's junk parameters), so `currentTest()` before the first
session start returns that indeterminate value, and the invariant
`currentTest ≤ testCount` is not established at construction: a concrete
junk value of 1 over an empty spec violates it. -/
theorem construction_leaves_counters_indeterminate {S : Type}
    (spec : List S) (c : Nat) (t : Rat) (f : Int) :
    (construct spec c t f).mCurrentTest = c ∧
    (construct spec c t f).mElapsedTime = t ∧
    (construct spec c t f).mElapsedFrames = f ∧
    currentTest (construct spec c t f) = c ∧
    ¬ (currentTest (construct ([] : List Nat) 1 0 0) ≤
        testCount (construct ([] : List Nat) 1 0 0)) :=
  ⟨rfl, rfl, rfl, rfl, by decide⟩

/-- Helper: when `batchModeEnabled` is false, `tick` never writes
`mShouldClose` (the close branch is guarded by batch mode). -/
theorem tick_shouldClose_stable_nonbatch {S : Type} (e : Engine S)
    (dt : Rat) (hs : Bool) (hbatch : e.mBatchModeEnabled = false) :
    (tick e dt hs).1.mShouldClose = e.mShouldClose := by
  simp only [tick]
  split_ifs with h1 h2 h3 h4 h5 h6 <;>
    simp_all [activateTest]

/-- Claim C3: in batch mode with `exportScreenshots == false`, the tick
that increments `currentTest` to `testCount` (both thresholds met on the
last test case) sets `shouldClose()` to true synchronously within that
same tick, and the session leaves the running state. -/
theorem batch_no_screenshots_closes_in_tick {S : Type} (e : Engine S)
    (dt : Rat) (hs : Bool)
    (hrun : e.mIsRunning = true) (hpend : e.mBatchModePending = false)
    (hbatch : e.mBatchModeEnabled = true)
    (hshot : e.mOptions.exportScreenshots = false)
    (htime : e.mOptions.sleepDuration ≤ e.mElapsedTime + dt)
    (hframe : e.mOptions.minFrameCount ≤ e.mElapsedFrames + 1)
    (hlast : e.mCurrentTest + 1 = e.mSpec.length) :
    (tick e dt hs).1.mShouldClose = true ∧
    (tick e dt hs).1.mCurrentTest = e.mSpec.length ∧
    (tick e dt hs).1.mIsRunning = false := by
  have hor : ¬ (e.mElapsedTime + dt < e.mOptions.sleepDuration ∨
      e.mElapsedFrames + 1 < e.mOptions.minFrameCount) := by
    push_neg
    exact ⟨htime, hframe⟩
  simp [tick, hrun, hpend, hbatch, hshot, hor, hlast]

/-- Witness for C3: the sample batch engine on its last test case closes
within the exhausting tick. -/
theorem batch_no_screenshots_closes_in_tick_witness :
    (tick lastTestBatchEngine 1 false).1.mShouldClose = true ∧
    (tick lastTestBatchEngine 1 false).1.mCurrentTest =
      lastTestBatchEngine.mSpec.length ∧
    (tick lastTestBatchEngine 1 false).1.mIsRunning = false :=
  batch_no_screenshots_closes_in_tick lastTestBatchEngine 1 false
    (by decide) (by decide) (by decide) (by decide)
    (by with_unfolding_all decide) (by with_unfolding_all decide) (by decide)

/-- Claim C4: in a non-batch session, the tick that exhausts the
sequence sets `isRunning()` to false and leaves `shouldClose` untouched;
moreover no operation of a non-batch session other than the external
`requestClose` callback ever writes `shouldClose`. -/
theorem nonbatch_exhaustion_never_closes {S : Type} (e e2 : Engine S)
    (dt : Rat) (hs : Bool) (op : Op)
    (hrun : e.mIsRunning = true) (hpend : e.mBatchModePending = false)
    (hbatch : e.mBatchModeEnabled = false)
    (htime : e.mOptions.sleepDuration ≤ e.mElapsedTime + dt)
    (hframe : e.mOptions.minFrameCount ≤ e.mElapsedFrames + 1)
    (hlast : e.mCurrentTest + 1 = e.mSpec.length)
    (hbatch2 : e2.mBatchModeEnabled = false) (hop : op ≠ Op.requestClose) :
    (tick e dt hs).1.mIsRunning = false ∧
    (tick e dt hs).1.mShouldClose = e.mShouldClose ∧
    (step e2 op).1.mShouldClose = e2.mShouldClose := by
  have hor : ¬ (e.mElapsedTime + dt < e.mOptions.sleepDuration ∨
      e.mElapsedFrames + 1 < e.mOptions.minFrameCount) := by
    push_neg
    exact ⟨htime, hframe⟩
  refine ⟨?_, ?_, ?_⟩
  · simp [tick, hrun, hpend, hbatch, hor, hlast]
  · exact tick_shouldClose_stable_nonbatch e dt hs hbatch
  · cases op with
    | startRunning hs2 => simp [step, startRunning, activateTest]
    | requestBatchMode => simp [step, requestBatchMode]
    | allowBatchMode => simp [step, allowBatchMode]
    | stopRunning => simp [step, stopRunning]
    | requestClose => exact absurd rfl hop
    | tick dt2 hs2 => exact tick_shouldClose_stable_nonbatch e2 dt2 hs2 hbatch2

/-- Witness for C4: the sample non-batch engine on its last test case
goes idle without closing, and a `stopRunning` on the fresh active
sample leaves `shouldClose` untouched. -/
theorem nonbatch_exhaustion_never_closes_witness :
    (tick lastTestEngine 1 false).1.mIsRunning = false ∧
    (tick lastTestEngine 1 false).1.mShouldClose = lastTestEngine.mShouldClose ∧
    (step activeEngine Op.stopRunning).1.mShouldClose = activeEngine.mShouldClose :=
  nonbatch_exhaustion_never_closes lastTestEngine activeEngine 1 false
    Op.stopRunning (by decide) (by decide) (by decide)
    (by with_unfolding_all decide) (by with_unfolding_all decide) (by decide)
    (by decide) (by decide)

/-- Helper: the state component of `tick`, written without the
effect-list computations, for case analyses that only concern state. -/
theorem tick_state_eq {S : Type} (e : Engine S) (dt : Rat) (hs : Bool) :
    (tick e dt hs).1 =
      if e.mIsRunning = false then e
      else if e.mBatchModePending then
        if e.mBatchModeAllowed = false then e
        else { activateTest e 0 with mBatchModePending := false }
      else if e.mElapsedTime + dt < e.mOptions.sleepDuration ∨
              e.mElapsedFrames + 1 < e.mOptions.minFrameCount then
        { e with mElapsedTime := e.mElapsedTime + dt,
                 mElapsedFrames := e.mElapsedFrames + 1 }
      else if e.mCurrentTest + 1 = e.mSpec.length then
        if e.mBatchModeEnabled ∧ e.mOptions.exportScreenshots = false then
          { e with mCurrentTest := e.mCurrentTest + 1,
                   mElapsedTime := e.mElapsedTime + dt,
                   mElapsedFrames := e.mElapsedFrames + 1,
                   mIsRunning := false, mShouldClose := true }
        else
          { e with mCurrentTest := e.mCurrentTest + 1,
                   mElapsedTime := e.mElapsedTime + dt,
                   mElapsedFrames := e.mElapsedFrames + 1,
                   mIsRunning := false }
      else activateTest e (e.mCurrentTest + 1) := by
  simp only [tick]
  split_ifs <;> rfl

/-- Counterexample to Claim C2 as stated: the constructor leaves
`mCurrentTest` indeterminate and `requestBatchMode` starts a session
without resetting it, so after that operation the session is active
(`isRunning() = true`) while `currentTest` (here the junk value 5 over a
one-test spec) exceeds `testCount`. -/
theorem currentTest_invariant_counterexample :
    isRunning (step (construct ([0] : List Nat) 5 0 0) Op.requestBatchMode).1
      = true ∧
    ¬ (currentTest (step (construct ([0] : List Nat) 5 0 0)
         Op.requestBatchMode).1 ≤
       testCount (step (construct ([0] : List Nat) 5 0 0)
         Op.requestBatchMode).1) := by
  with_unfolding_all decide

/-- Claim C2 (amended): once the session invariant has been established
(nonempty test list, `currentTest ≤ testCount`, and strictly below it
while running and not pending — the situation `startRunning` or a fired
batch activation creates by resetting `currentTest` to 0), every
operation preserves it, and `currentTest` changes only by staying put,
being reset to 0, or being incremented by 1; in particular
`0 ≤ currentTest ≤ testCount` then holds after every operation.  Before
any reset (a batch session started on a freshly constructed engine) the
bound can fail, as the counterexample shows. -/
theorem currentTest_bounded_and_monotone {S : Type} (e : Engine S) (op : Op)
    (h : SessionInv e) :
    SessionInv (step e op).1 ∧
    ((step e op).1.mCurrentTest = e.mCurrentTest ∨
     (step e op).1.mCurrentTest = 0 ∨
     (step e op).1.mCurrentTest = e.mCurrentTest + 1) := by
  obtain ⟨hlen, hle, hlt⟩ := h
  cases op with
  | startRunning hs =>
      exact ⟨⟨hlen, Nat.zero_le _, fun _ _ => hlen⟩, Or.inr (Or.inl rfl)⟩
  | requestBatchMode =>
      refine ⟨⟨hlen, hle, ?_⟩, Or.inl rfl⟩
      intro _ hpend
      exact absurd hpend (by simp [step, requestBatchMode])
  | allowBatchMode =>
      exact ⟨⟨hlen, hle, hlt⟩, Or.inl rfl⟩
  | stopRunning =>
      refine ⟨⟨hlen, hle, ?_⟩, Or.inl rfl⟩
      intro hrun
      exact absurd hrun (by simp [step, stopRunning])
  | requestClose =>
      exact ⟨⟨hlen, hle, hlt⟩, Or.inl rfl⟩
  | tick dt hs =>
      have hstep : (step e (Op.tick dt hs)).1 = (tick e dt hs).1 := rfl
      rw [hstep, tick_state_eq]
      split_ifs with h1 h2 h3 h4 h5 h6
      · exact ⟨⟨hlen, hle, hlt⟩, Or.inl rfl⟩
      · exact ⟨⟨hlen, hle, hlt⟩, Or.inl rfl⟩
      · exact ⟨⟨hlen, Nat.zero_le _, fun _ _ => hlen⟩, Or.inr (Or.inl rfl)⟩
      · exact ⟨⟨hlen, hle, hlt⟩, Or.inl rfl⟩
      · exact ⟨⟨hlen, le_of_eq h5, fun hr => nomatch hr⟩, Or.inr (Or.inr rfl)⟩
      · exact ⟨⟨hlen, le_of_eq h5, fun hr => nomatch hr⟩, Or.inr (Or.inr rfl)⟩
      · have hrun : e.mIsRunning = true := by
          cases hb : e.mIsRunning <;> simp_all
        have hpend : e.mBatchModePending = false := by
          cases hb : e.mBatchModePending <;> simp_all
        have hctlt : e.mCurrentTest < e.mSpec.length := hlt hrun hpend
        have hlt2 : e.mCurrentTest + 1 < e.mSpec.length := by omega
        exact ⟨⟨hlen, le_of_lt hlt2, fun _ _ => hlt2⟩, Or.inr (Or.inr rfl)⟩

/-- Witness for C2 (amended): one below-threshold tick of the sample
active engine preserves the invariant and leaves `currentTest` in the
allowed set of changes. -/
theorem currentTest_bounded_and_monotone_witness :
    SessionInv (step activeEngine (Op.tick 1 false)).1 ∧
    ((step activeEngine (Op.tick 1 false)).1.mCurrentTest
        = activeEngine.mCurrentTest ∨
     (step activeEngine (Op.tick 1 false)).1.mCurrentTest = 0 ∨
     (step activeEngine (Op.tick 1 false)).1.mCurrentTest
        = activeEngine.mCurrentTest + 1) :=
  currentTest_bounded_and_monotone activeEngine (Op.tick 1 false)
    ⟨by decide, by decide, fun _ _ => by decide⟩
